import Mathlib

/-!
Shallow embedding of the stock-status, replenishment, sequencing and
order-settlement core of the `ims-trial` inventory application.

Sources embedded (TypeScript):
* `lib/orders-utils.ts` — `createProductOrder`, `updateProductOrderStatus`,
  `createPurchaseOrder`, `generatePurchaseOrdersForLowStock` (per-item
  quantity computation), `generateLowStockReport` (per-item
  `reorder_needed` computation);
* the database layer (`database.ts`) — `addInventoryItem`,
  `updateInventoryItem`, `addRawMaterial`, `updateRawMaterial`,
  `getRawMaterials` (row transform).

Modelling conventions: quantities are `Int` (the JavaScript numbers involved
are integral); timestamps and identifiers are plain strings; the Supabase
store and the module-level in-memory order arrays are explicit record-list
state (`DBState`).  External store failures that the code handles are modelled
by boolean failure flags in the state.  Monetary fields (subtotal, tax,
shipping) are floating point in the source and are not modelled; no claim
refers to them.  Console logging and the fire-and-forget activity log are
side effects outside the data model and are not modelled.
-/

namespace IMS

/-- JavaScript `x || d` for a nullable number: `null`/`undefined` and `0` are
falsy, so both give the default `d`. -/
def jsOr (x : Option Int) (d : Int) : Int :=
  match x with
  | none => d
  | some v => if v = 0 then d else v

/-- JavaScript numeric coercion of a nullable number used in comparisons
(`q <= null` compares `q` with `0`). -/
def jsNum (x : Option Int) : Int := x.getD 0

/-! ## Status classification, site by site -/

/-- Modelled from the spec (§4.1): the claimed status-classifier rule —
`quantity == 0 → out-of-stock`, `0 < quantity ≤ reorderLevel → low-stock`,
`quantity > reorderLevel → in-stock`.  Used only to compare the per-site
classifiers below against the specification. -/
def specClassify (quantity reorderLevel : Int) : String :=
  if quantity = 0 then "out-of-stock"
  else if quantity ≤ reorderLevel then "low-stock"
  else "in-stock"

/-- Source `addInventoryItem` (new-product status): starts `"in-stock"`, set to
`"out-of-stock"` when `item.stock === 0`, else `"low-stock"` when
`item.stock <= 10`.  The threshold is the constant 10 — products store no
reorder level. -/
def addInventoryItemStatus (stock : Int) : String :=
  if stock = 0 then "out-of-stock"
  else if stock ≤ 10 then "low-stock"
  else "in-stock"

/-- Source `updateInventoryItem` (product status recompute on a stock update):
`stock === 0 → out-of-stock`, `stock <= 10 → low-stock`, else `in-stock`;
again the constant threshold 10. -/
def updateInventoryItemStatus (stock : Int) : String :=
  if stock = 0 then "out-of-stock"
  else if stock ≤ 10 then "low-stock"
  else "in-stock"

/-- Source `addRawMaterial`: new materials always store `reorder_level = 10` and are
classified against it (`quantity === 0 → out-of-stock`,
`quantity <= reorder_level → low-stock`, else `in-stock`). -/
def addRawMaterialStatus (quantity : Int) : String :=
  if quantity = 0 then "out-of-stock"
  else if quantity ≤ 10 then "low-stock"
  else "in-stock"

/-- Source `updateRawMaterial` status recompute: `newQuantity === 0 → out-of-stock`,
`newQuantity <= newReorderLevel → low-stock`, else `in-stock`, where
`newReorderLevel` is the stored `reorder_level` (possibly `null`; JavaScript
compares `null` as `0`). -/
def updateRawMaterialStatus (newQuantity : Int) (newReorderLevel : Option Int) : String :=
  if newQuantity = 0 then "out-of-stock"
  else if newQuantity ≤ jsNum newReorderLevel then "low-stock"
  else "in-stock"

/-- Source `getRawMaterials` row transform, `status` field:
`item.status || (item.quantity > 10 ? "in-stock" : item.quantity > 0 ?
"low-stock" : "out-of-stock")`.  When the stored status is missing (or the
empty string, also falsy under `||`) the fallback classifies against the
constant 10, ignoring the row's stored `reorder_level`. -/
def getRawMaterialsStatus (storedStatus : Option String) (quantity : Int) : String :=
  let fallback :=
    if quantity > 10 then "in-stock"
    else if quantity > 0 then "low-stock"
    else "out-of-stock"
  match storedStatus with
  | none => fallback
  | some s => if s = "" then fallback else s

/-! ## Raw-material rows and the replenishment computations -/

/-- A `raw_materials` row (fields the core logic reads).  `reorder_level` is
nullable in the schema, hence `Option`. -/
structure RawMaterial where
  id : Nat
  name : String
  quantity : Int
  reorder_level : Option Int
  status : String
deriving DecidableEq

/-- Source `generatePurchaseOrdersForLowStock`, per-item order line, as
written: `reorderLevel = item.reorder_level || 20`;
`quantityNeeded = Math.max(reorderLevel * 2 - currentQuantity, reorderLevel)`.
The generator's only caller feeds it `getRawMaterials()` output, whose
transform has already defaulted `reorder_level` to 10, so on the program's
call path the `|| 20` here never fires (see `autoPoQuantityNeeded`). -/
def poGenQuantityNeeded (item : RawMaterial) : Int :=
  let reorderLevel := jsOr item.reorder_level 20
  let currentQuantity := item.quantity
  max (reorderLevel * 2 - currentQuantity) reorderLevel

/-- Source `generateLowStockReport`, raw-material rows:
`reorder_needed = Math.max((item.reorder_level || 10) * 2 - item.quantity, 0)`.
The report also reads its rows through `getRawMaterials()` (see
`reportRawReorderNeededOnPath`). -/
def reportRawReorderNeeded (item : RawMaterial) : Int :=
  max ((jsOr item.reorder_level 10) * 2 - item.quantity) 0

/-- Source `generateLowStockReport`, product rows:
`reorder_needed = Math.max(40 - item.stock, 0)` — a hardcoded target of 40,
independent of any per-item threshold (products store no reorder level). -/
def reportProductReorderNeeded (stock : Int) : Int :=
  max (40 - stock) 0

/-- Source `getRawMaterials` row transform on the fields the replenishment
sites read: `reorder_level: item.reorder_level || 10` and
`status: item.status || (fallback)` (the stored status when it is non-empty;
the model's `status` field is the stored column, with `""` standing for the
falsy SQL values).  `quantity: item.quantity || 0` is the identity on the
integers modelled here (`0 || 0` is `0`); the `sku`/`unit`/`category`
defaults do not feed the replenishment computations. -/
def getRawMaterialsTransform (row : RawMaterial) : RawMaterial :=
  { row with reorder_level := some (jsOr row.reorder_level 10),
             status := getRawMaterialsStatus (some row.status) row.quantity }

/-- Auto-PO line quantity as the program computes it: the generator's only
caller (the orders page) fetches the rows with `getRawMaterials()` and passes
them to `generatePurchaseOrdersForLowStock`, so every input row has been
through the transform. -/
def autoPoQuantityNeeded (row : RawMaterial) : Int :=
  poGenQuantityNeeded (getRawMaterialsTransform row)

/-- Low-stock-report `reorder_needed` for a raw material as the program
computes it: `generateLowStockReport` itself reads the rows with
`getRawMaterials()`. -/
def reportRawReorderNeededOnPath (row : RawMaterial) : Int :=
  reportRawReorderNeeded (getRawMaterialsTransform row)

/-- Modelled from the spec (§4.2): the claimed replenishment formula
`ReorderQuantity(currentQuantity, reorderLevel) =
max(2 × reorderLevel − currentQuantity, reorderLevel)`. -/
def specReorderQuantity (currentQuantity reorderLevel : Int) : Int :=
  max (2 * reorderLevel - currentQuantity) reorderLevel

/-! ## Identifier sequencing -/

/-- Source `n.toString().padStart(4, "0")`. -/
def padStart4 (n : Nat) : String :=
  let s := toString n
  if 4 ≤ s.length then s else String.mk (List.replicate (4 - s.length) '0') ++ s

/-- A `purchase_orders` header row (fields the claims read; monetary columns
omitted).  `created_seq` models the `created_at` insertion order: rows are
inserted with strictly increasing sequence numbers. -/
structure PORow where
  id : Nat
  po_number : String
  supplier : String
  created_seq : Nat
deriving DecidableEq

/-- The row produced by `order("created_at", descending).limit(1)`: the most
recently inserted row (largest creation sequence; earlier row wins a tie,
which never occurs since insertions get strictly increasing sequences). -/
def latestPORow : List PORow → Option PORow
  | [] => none
  | r :: rs =>
    match latestPORow rs with
    | none => some r
    | some b => some (if b.created_seq > r.created_seq then b else r)

/-- The numeric value of a decimal digit character, if it is one. -/
def digitVal (c : Char) : Option Nat :=
  if '0' ≤ c ∧ c ≤ '9' then some (c.toNat - '0'.toNat) else none

/-- Accumulating decimal parse of a character list (all characters must be
digits). -/
def parseDigitsAux : List Char → Nat → Option Nat
  | [], acc => some acc
  | c :: cs, acc =>
    match digitVal c with
    | none => none
    | some d => parseDigitsAux cs (acc * 10 + d)

/-- Source `Number.parseInt` on a digit string: `none` models `NaN` (empty input or
a non-digit; the identifiers this system writes have pure digit suffixes, so
`parseInt`'s leading-digits behaviour never differs). -/
def parseDigits : List Char → Option Nat
  | [] => none
  | cs => parseDigitsAux cs 0

/-- Source `po_number.match(/PO-(\d+)/)` followed by `Number.parseInt` on the capture,
for numbers of the shape `PO-<digits>` — the only shape this system writes. -/
def parsePoNumber (s : String) : Option Nat :=
  match s.data with
  | 'P' :: 'O' :: '-' :: rest => parseDigits rest
  | _ => none

/-- Source `createPurchaseOrder`, PO-number generation: fetch the most recently
created PO (`order by created_at desc limit 1`), parse its number and add 1
(1 when the table is empty or the number does not match), then pad to a
minimum of 4 digits. -/
def generatePoNumber (rows : List PORow) : String :=
  let nextNumber :=
    match latestPORow rows with
    | none => 1
    | some row =>
      match parsePoNumber row.po_number with
      | some n => n + 1
      | none => 1
  "PO-" ++ padStart4 nextNumber

/-- Code-point lexicographic comparison of character lists: the string order
used by JavaScript and (for the plain ASCII identifiers this system writes)
by the store's `order("sku", ...)`. -/
def charListLtb : List Char → List Char → Bool
  | [], [] => false
  | [], _ :: _ => true
  | _ :: _, [] => false
  | a :: as, b :: bs =>
    if a < b then true
    else if b < a then false
    else charListLtb as bs

/-- Lexicographic string comparison (on the underlying character lists). -/
def strLtb (a b : String) : Bool := charListLtb a.data b.data

/-- The larger of two strings in lexicographic order. -/
def maxStr (a b : String) : String := if strLtb a b then b else a

/-- The row produced by `order("sku", descending).limit(1)`: the largest sku
in string (lexicographic) order. -/
def maxSku : List String → Option String
  | [] => none
  | s :: rest =>
    some (match maxSku rest with
          | none => s
          | some b => maxStr s b)

/-- The characters up to (excluding) the next `'-'`: the extent of a
`split("-")` segment. -/
def takeUntilDash : List Char → List Char
  | [] => []
  | c :: rest => if c = '-' then [] else c :: takeUntilDash rest

/-- The `split("-")[1]` segment: the characters between the first and second
`'-'` (`none` — JavaScript `undefined` — when there is no dash). -/
def afterFirstDash : List Char → Option (List Char)
  | [] => none
  | c :: rest => if c = '-' then some (takeUntilDash rest) else afterFirstDash rest

/-- Source `Number.parseInt(lastSku.split("-")[1])` for skus of the shape
`PRD-<digits>` — the only shape this system writes. -/
def parseSkuSuffix (s : String) : Option Nat :=
  match afterFirstDash s.data with
  | none => none
  | some cs => parseDigits cs

/-- Source `addInventoryItem`, SKU generation: take the largest existing `PRD-` sku
in string order, parse its numeric suffix and add 1 (1 when there is none or
it does not parse), then pad to a minimum of 4 digits. -/
def addInventoryItemSku (existingSkus : List String) : String :=
  let nextNumber :=
    match maxSku existingSkus with
    | none => 1
    | some lastSku =>
      match parseSkuSuffix lastSku with
      | none => 1
      | some n => n + 1
  "PRD-" ++ padStart4 nextNumber

/-! ## System state -/

/-- An `inventory_items` (product) row — fields the core logic reads.
Products store no reorder level. -/
structure InventoryItem where
  id : Nat
  name : String
  stock : Int
  status : String
deriving DecidableEq

/-- A material requirement of a work order. -/
structure MaterialReq where
  materialId : Nat
  quantity : Int
deriving DecidableEq

/-- An in-memory `ProductOrder` (work order) record. -/
structure ProductOrder where
  id : String
  productId : Nat
  productName : String
  quantity : Int
  materials : List MaterialReq
  status : String
  createdAt : String
  updatedAt : String
  completedAt : Option String
deriving DecidableEq

/-- A `purchase_order_items` row (monetary columns omitted). -/
structure POItemRow where
  po_id : Nat
  raw_material_id : Nat
  material_name : String
  quantity : Int
deriving DecidableEq

/-- The observable store state: the Supabase tables the embedded operations
touch, the module-level in-memory work-order arrays and id counter of
`orders-utils.ts`, and flags modelling the store failures the code handles
(`xxxFails = true` means the corresponding store call reports an error). -/
structure DBState where
  rawMaterials : List RawMaterial
  inventoryItems : List InventoryItem
  productOrders : List ProductOrder
  productOrderHistory : List ProductOrder
  nextOrderId : Nat
  purchase_orders : List PORow
  purchase_order_items : List POItemRow
  nextPoId : Nat
  poSeq : Nat
  invUpdateFails : Bool
  poFetchFails : Bool
  poHeaderInsertFails : Bool
  poItemsInsertFails : Bool
deriving DecidableEq

/-! ## Stock ledger operations -/

/-- One iteration of the material-deduction loop in `createProductOrder`:
re-read the materials, find the required one (fail if absent), fail with the
insufficient-stock error if `quantity - required < 0` (nothing written),
otherwise write the new quantity through `updateRawMaterial`, which also
recomputes the status from the stored reorder level.  Returns the error (if
any) and the materials table after the step. -/
def deductOne (mats : List RawMaterial) (req : MaterialReq) :
    Option String × List RawMaterial :=
  match mats.find? (fun m => m.id == req.materialId) with
  | none => (some "material not found", mats)
  | some currentMaterial =>
    let newQuantity := currentMaterial.quantity - req.quantity
    if newQuantity < 0 then (some "Insufficient stock", mats)
    else
      (none,
        mats.map (fun m =>
          if m.id == req.materialId then
            { m with quantity := newQuantity,
                     status := updateRawMaterialStatus newQuantity m.reorder_level }
          else m))

/-- The whole deduction loop: materials are deducted sequentially; the first
failure aborts the loop, leaving every earlier deduction written. -/
def deductMaterials (mats : List RawMaterial) :
    List MaterialReq → Option String × List RawMaterial
  | [] => (none, mats)
  | req :: rest =>
    match deductOne mats req with
    | (some e, mats1) => (some e, mats1)
    | (none, mats1) => deductMaterials mats1 rest

/-- The request payload of `createProductOrder`. -/
structure CreateOrderData where
  productId : Nat
  productName : String
  quantity : Int
  materials : List MaterialReq
  status : String
deriving DecidableEq

/-- Source `createProductOrder`: deduct every required material in sequence (a
failure propagates the error; deductions already written stay written and no
order is recorded), then build the order record with id `PO-<padded counter>`,
push it onto the in-memory active list and bump the counter. -/
def createProductOrder (st : DBState) (orderData : CreateOrderData) (now : String) :
    Except String ProductOrder × DBState :=
  match deductMaterials st.rawMaterials orderData.materials with
  | (some e, mats1) => (Except.error e, { st with rawMaterials := mats1 })
  | (none, mats1) =>
    let newOrder : ProductOrder :=
      { id := "PO-" ++ padStart4 st.nextOrderId
        productId := orderData.productId
        productName := orderData.productName
        quantity := orderData.quantity
        materials := orderData.materials
        status := orderData.status
        createdAt := now
        updatedAt := now
        completedAt := none }
    (Except.ok newOrder,
      { st with rawMaterials := mats1,
                nextOrderId := st.nextOrderId + 1,
                productOrders := st.productOrders ++ [newOrder] })

/-- Source `updateInventoryItem` restricted to a stock update (the only shape the
settlement code issues): recompute the status from the new stock and write
the row; a store failure (`invUpdateFails`) or a missing row yields `none`
with nothing written. -/
def updateInventoryItemStock (st : DBState) (id : Nat) (newStock : Int) :
    Option InventoryItem × DBState :=
  if st.invUpdateFails then (none, st)
  else
    match st.inventoryItems.find? (fun p => p.id == id) with
    | none => (none, st)
    | some _ =>
      let items := st.inventoryItems.map (fun p =>
        if p.id == id then
          { p with stock := newStock, status := updateInventoryItemStatus newStock }
        else p)
      (items.find? (fun p => p.id == id), { st with inventoryItems := items })

/-- The source's `findIndex` on the active list, with the later `splice`/set
operating at the found index: we return the decomposition
(orders before the first match, the match, orders after). -/
def findOrder : List ProductOrder → String → Option (List ProductOrder × ProductOrder × List ProductOrder)
  | [], _ => none
  | o :: rest, oid =>
    if o.id == oid then some ([], o, rest)
    else
      match findOrder rest oid with
      | none => none
      | some (pre, m, post) => some (o :: pre, m, post)

/-- Outcome of `updateProductOrderStatus`: `notFound` models the `return null`
when `findIndex` misses; `failed` models the thrown error when the product
credit fails; `ok` carries the returned updated order. -/
inductive UpdateOrderResult where
  | notFound
  | failed
  | ok (o : ProductOrder)
deriving DecidableEq

/-- Source `updateProductOrderStatus`: look the order up in the active list (`null`
if absent).  For `"completed"`, stamp `completedAt`, credit the produced
quantity to the product's stock (a missing product or failing write aborts
the whole call with nothing changed), then move the record from the active
list to the history list.  For any other status, rewrite the record in place
with the new status and `updatedAt`. -/
def updateProductOrderStatus (st : DBState) (oid status now : String) :
    UpdateOrderResult × DBState :=
  match findOrder st.productOrders oid with
  | none => (UpdateOrderResult.notFound, st)
  | some (pre, old, post) =>
    let updatedOrder := { old with status := status, updatedAt := now }
    if status = "completed" then
      let updatedOrder := { updatedOrder with completedAt := some now }
      match st.inventoryItems.find? (fun p => p.id == updatedOrder.productId) with
      | none => (UpdateOrderResult.failed, st)
      | some product =>
        let newQuantity := product.stock + updatedOrder.quantity
        match updateInventoryItemStock st updatedOrder.productId newQuantity with
        | (none, _) => (UpdateOrderResult.failed, st)
        | (some _, st1) =>
          (UpdateOrderResult.ok updatedOrder,
            { st1 with productOrders := pre ++ post,
                       productOrderHistory := st1.productOrderHistory ++ [updatedOrder] })
    else
      (UpdateOrderResult.ok updatedOrder,
        { st with productOrders := pre ++ updatedOrder :: post })

/-! ## Purchase-order creation -/

/-- A line item of the `createPurchaseOrder` payload (unit price omitted —
monetary fields are not modelled). -/
structure POItemData where
  raw_material_id : Nat
  material_name : String
  quantity : Int
deriving DecidableEq

/-- The `createPurchaseOrder` payload. -/
structure CreatePOData where
  supplier : String
  items : List POItemData
deriving DecidableEq

/-- Source `createPurchaseOrder` (monetary fields omitted): generate the PO number
from the most recently created PO, insert the header row (fresh id, next
creation sequence), then insert the line items; when the item insert fails
the just-created header row is deleted again (`delete().eq("id", order.id)`)
and `none` is returned.  A fetch or header-insert failure returns `none` with
nothing written. -/
def createPurchaseOrder (st : DBState) (orderData : CreatePOData) :
    Option (PORow × List POItemRow) × DBState :=
  if st.poFetchFails then (none, st)
  else
    let po_number := generatePoNumber st.purchase_orders
    if st.poHeaderInsertFails then (none, st)
    else
      let hid := st.nextPoId
      let row : PORow :=
        { id := hid, po_number := po_number,
          supplier := orderData.supplier, created_seq := st.poSeq }
      let st1 := { st with purchase_orders := st.purchase_orders ++ [row],
                           nextPoId := hid + 1, poSeq := st.poSeq + 1 }
      if st.poItemsInsertFails then
        (none, { st1 with purchase_orders := st1.purchase_orders.filter (fun r => r.id != hid) })
      else
        let items := orderData.items.map (fun it =>
          { po_id := hid, raw_material_id := it.raw_material_id,
            material_name := it.material_name, quantity := it.quantity })
        (some (row, items),
          { st1 with purchase_order_items := st1.purchase_order_items ++ items })

/-! Helper lemmas. -/

theorem stringDataEq {a b : String} (h : a.data = b.data) : a = b := by
  cases a
  cases b
  exact congrArg String.mk h

theorem charListLtb_asymm : ∀ {a b : List Char},
    charListLtb a b = true → charListLtb b a = false
  | [], [] => by simp [charListLtb]
  | [], _ :: _ => by simp [charListLtb]
  | _ :: _, [] => by simp [charListLtb]
  | x :: xs, y :: ys => by
    intro h
    simp only [charListLtb] at h ⊢
    by_cases hxy : x < y
    · simp [hxy, lt_asymm hxy]
    · by_cases hyx : y < x
      · simp [hxy, hyx] at h
      · simp only [hxy, hyx, if_false] at h ⊢
        exact charListLtb_asymm h

theorem charListLtb_eq_of_ff : ∀ {a b : List Char},
    charListLtb a b = false → charListLtb b a = false → a = b
  | [], [] => by intro _ _; rfl
  | [], _ :: _ => by simp [charListLtb]
  | _ :: _, [] => by simp [charListLtb]
  | x :: xs, y :: ys => by
    intro h1 h2
    simp only [charListLtb] at h1 h2
    by_cases hxy : x < y
    · simp [hxy] at h1
    · by_cases hyx : y < x
      · simp [hyx] at h2
      · have hx : x = y := le_antisymm (not_lt.mp hyx) (not_lt.mp hxy)
        subst hx
        simp only [hxy, hyx, if_false] at h1 h2
        exact congrArg (List.cons x) (charListLtb_eq_of_ff h1 h2)

theorem charListLtb_trans : ∀ {a b c : List Char},
    charListLtb a b = true → charListLtb b c = true → charListLtb a c = true
  | _, [], [] => by simp [charListLtb]
  | [], _ :: _, [] => by intro _ h2; simp [charListLtb] at h2
  | _ :: _, _ :: _, [] => by intro _ h2; simp [charListLtb] at h2
  | [], _, _ :: _ => by simp [charListLtb]
  | x :: xs, [], z :: zs => by intro h1; simp [charListLtb] at h1
  | x :: xs, y :: ys, z :: zs => by
    intro h1 h2
    simp only [charListLtb] at h1 h2 ⊢
    by_cases hxy : x < y
    · by_cases hyz : y < z
      · simp [lt_trans hxy hyz]
      · by_cases hzy : z < y
        · simp [hyz, hzy] at h2
        · have : y = z := le_antisymm (not_lt.mp hzy) (not_lt.mp hyz)
          subst this
          simp [hxy]
    · by_cases hyx : y < x
      · simp [hxy, hyx] at h1
      · have : x = y := le_antisymm (not_lt.mp hyx) (not_lt.mp hxy)
        subst this
        simp only [hxy, hyx, if_false] at h1
        by_cases hyz : x < z
        · simp [hyz]
        · by_cases hzy : z < x
          · simp [hyz, hzy] at h2
          · simp only [hyz, hzy, if_false] at h2 ⊢
            exact charListLtb_trans h1 h2

theorem strLtb_asymm {a b : String} (h : strLtb a b = true) : strLtb b a = false :=
  charListLtb_asymm h

theorem strLtb_eq_of_ff {a b : String} (h1 : strLtb a b = false)
    (h2 : strLtb b a = false) : a = b :=
  stringDataEq (charListLtb_eq_of_ff h1 h2)

theorem strLtb_trans {a b c : String} (h1 : strLtb a b = true)
    (h2 : strLtb b c = true) : strLtb a c = true :=
  charListLtb_trans h1 h2

theorem strLtb_ff_trans {a b c : String} (h1 : strLtb a b = false)
    (h2 : strLtb b c = false) : strLtb a c = false := by
  cases hac : strLtb a c with
  | false => rfl
  | true =>
    cases hba : strLtb b a with
    | true =>
      have hbc := strLtb_trans hba hac
      simp [hbc] at h2
    | false =>
      have hab : a = b := strLtb_eq_of_ff h1 hba
      subst hab
      simp [hac] at h2

theorem maxStr_comm (a b : String) : maxStr a b = maxStr b a := by
  unfold maxStr
  cases hab : strLtb a b with
  | true => simp [strLtb_asymm hab]
  | false =>
    cases hba : strLtb b a with
    | true => simp
    | false => simp [strLtb_eq_of_ff hab hba]

theorem maxStr_assoc (a b c : String) : maxStr (maxStr a b) c = maxStr a (maxStr b c) := by
  unfold maxStr
  cases hab : strLtb a b with
  | true =>
    cases hbc : strLtb b c with
    | true => simp [hab, hbc, strLtb_trans hab hbc]
    | false => simp [hab, hbc]
  | false =>
    cases hbc : strLtb b c with
    | true => simp [hab, hbc]
    | false => simp [hab, hbc, strLtb_ff_trans hab hbc]

theorem maxStr_left_comm (a b c : String) :
    maxStr a (maxStr b c) = maxStr b (maxStr a c) := by
  rw [← maxStr_assoc, maxStr_comm a b, maxStr_assoc]

theorem maxSku_perm {l1 l2 : List String} (h : l1.Perm l2) : maxSku l1 = maxSku l2 := by
  induction h with
  | nil => rfl
  | cons x h ih => simp only [maxSku, ih]
  | swap x y l =>
    simp only [maxSku]
    cases h : maxSku l with
    | none => simp [maxStr_comm]
    | some b => simp [maxStr_left_comm]
  | trans h1 h2 ih1 ih2 => exact ih1.trans ih2

theorem find?_map_update {α : Type} (idOf : α → Nat) (f : α → α)
    (hf : ∀ x, idOf (f x) = idOf x) (i : Nat) :
    ∀ (l : List α) (cur : α),
      l.find? (fun x => idOf x == i) = some cur →
      (l.map (fun x => if idOf x == i then f x else x)).find? (fun x => idOf x == i)
        = some (f cur) := by
  intro l
  induction l with
  | nil => intro cur h; simp at h
  | cons a as ih =>
    intro cur h
    by_cases ha : idOf a = i
    · rw [List.find?_cons_of_pos _ (by simp [ha])] at h
      cases h
      simp only [List.map_cons, if_pos (by simp [ha] : (idOf a == i) = true)]
      rw [List.find?_cons_of_pos _ (by simp [hf, ha])]
    · rw [List.find?_cons_of_neg _ (by simp [ha])] at h
      simp only [List.map_cons, if_neg (by simp [ha] : ¬ (idOf a == i) = true)]
      rw [List.find?_cons_of_neg _ (by simp [ha])]
      exact ih cur h

theorem findOrder_spec :
    ∀ (l : List ProductOrder) (oid : String) (pre : List ProductOrder)
      (old : ProductOrder) (post : List ProductOrder),
      findOrder l oid = some (pre, old, post) →
      l = pre ++ old :: post ∧ old.id = oid ∧ ∀ x ∈ pre, x.id ≠ oid := by
  intro l
  induction l with
  | nil => intro oid pre old post h; simp [findOrder] at h
  | cons o rest ih =>
    intro oid pre old post h
    by_cases ho : o.id = oid
    · rw [findOrder, if_pos (by simp [ho])] at h
      cases h
      exact ⟨rfl, ho, by simp⟩
    · rw [findOrder, if_neg (by simp [ho])] at h
      cases hr : findOrder rest oid with
      | none => rw [hr] at h; cases h
      | some t =>
        obtain ⟨pre1, old1, post1⟩ := t
        rw [hr] at h
        simp only [Option.some.injEq, Prod.mk.injEq] at h
        obtain ⟨hpre, hold, hpost⟩ := h
        obtain ⟨h1, h2, h3⟩ := ih oid pre1 old1 post1 hr
        subst hpre
        subst hold
        subst hpost
        refine ⟨by simp [h1], h2, ?_⟩
        intro x hx
        rcases List.mem_cons.mp hx with hx | hx
        · subst hx; exact ho
        · exact h3 x hx

theorem findOrder_eq_none {l : List ProductOrder} {oid : String}
    (h : ∀ o ∈ l, o.id ≠ oid) : findOrder l oid = none := by
  induction l with
  | nil => rfl
  | cons o rest ih =>
    have ho : o.id ≠ oid := h o (by simp)
    rw [findOrder, if_neg (by simp [ho])]
    rw [ih (fun x hx => h x (List.mem_cons_of_mem o hx))]

theorem deductOne_fail_eq {mats : List RawMaterial} {req : MaterialReq} {e : String}
    (h : (deductOne mats req).1 = some e) : (deductOne mats req).2 = mats := by
  unfold deductOne at h ⊢
  cases hf : mats.find? (fun m => m.id == req.materialId) with
  | none => rfl
  | some cur =>
    rw [hf] at h
    by_cases hq : cur.quantity - req.quantity < 0
    · simp [hq]
    · simp [hq] at h

theorem deductOne_nonneg {mats : List RawMaterial} {req : MaterialReq}
    (h0 : ∀ m ∈ mats, 0 ≤ m.quantity) :
    ∀ m ∈ (deductOne mats req).2, 0 ≤ m.quantity := by
  unfold deductOne
  cases hf : mats.find? (fun m => m.id == req.materialId) with
  | none => exact h0
  | some cur =>
    by_cases hq : cur.quantity - req.quantity < 0
    · simp only [hq, if_true]
      exact h0
    · simp only [hq, if_false]
      intro m hm
      simp only [List.mem_map] at hm
      obtain ⟨x, hx, rfl⟩ := hm
      by_cases hid : x.id = req.materialId
      · simp only [if_pos (by simp [hid] : (x.id == req.materialId) = true)]
        omega
      · simp only [if_neg (by simp [hid] : ¬ (x.id == req.materialId) = true)]
        exact h0 x hx

theorem deductMaterials_nonneg (reqs : List MaterialReq) :
    ∀ (mats : List RawMaterial), (∀ m ∈ mats, 0 ≤ m.quantity) →
      ∀ m ∈ (deductMaterials mats reqs).2, 0 ≤ m.quantity := by
  induction reqs with
  | nil => intro mats h0; simpa [deductMaterials] using h0
  | cons req rest ih =>
    intro mats h0
    have hstep : ∀ m ∈ (deductOne mats req).2, 0 ≤ m.quantity := deductOne_nonneg h0
    simp only [deductMaterials]
    cases hd : deductOne mats req with
    | mk err mats1 =>
      rw [hd] at hstep
      cases err with
      | none => simpa using ih mats1 hstep
      | some e => simpa using hstep

theorem deductOne_success_exact {mats : List RawMaterial} {req : MaterialReq}
    {cur : RawMaterial}
    (hf : mats.find? (fun m => m.id == req.materialId) = some cur)
    (hq : 0 ≤ cur.quantity - req.quantity) :
    (deductOne mats req).2.find? (fun m => m.id == req.materialId) =
      some { cur with quantity := cur.quantity - req.quantity,
                      status := updateRawMaterialStatus (cur.quantity - req.quantity)
                                  cur.reorder_level } := by
  unfold deductOne
  rw [hf]
  dsimp only
  rw [if_neg (by omega)]
  exact find?_map_update RawMaterial.id
    (fun m => { m with quantity := cur.quantity - req.quantity,
                       status := updateRawMaterialStatus (cur.quantity - req.quantity)
                                   m.reorder_level })
    (fun x => rfl) req.materialId mats cur hf

/-! Claim theorems. -/

/-- C2: over the code's stock-adjustment operation (the guarded material
deduction of `createProductOrder` writing through `updateRawMaterial`), every
sequence of adjustments keeps every stored quantity ≥ 0; a single adjustment
whose result would be negative fails (insufficient stock) with the stored
table unchanged; and a successful adjustment stores exactly the old quantity
minus the requirement — the value is never clamped. -/
theorem adjustQuantity_nonneg_no_clamp (mats : List RawMaterial)
    (reqs : List MaterialReq) (h0 : ∀ m ∈ mats, 0 ≤ m.quantity) :
    (∀ m ∈ (deductMaterials mats reqs).2, 0 ≤ m.quantity) ∧
    (∀ req e, (deductOne mats req).1 = some e → (deductOne mats req).2 = mats) ∧
    (∀ req cur, mats.find? (fun m => m.id == req.materialId) = some cur →
      0 ≤ cur.quantity - req.quantity →
      (deductOne mats req).2.find? (fun m => m.id == req.materialId) =
        some { cur with quantity := cur.quantity - req.quantity,
                        status := updateRawMaterialStatus (cur.quantity - req.quantity)
                                    cur.reorder_level }) :=
  ⟨deductMaterials_nonneg reqs mats h0,
   fun _ _ h => deductOne_fail_eq h,
   fun _ _ hf hq => deductOne_success_exact hf hq⟩

/-- Witness for C2 at a concrete table: a one-material store at quantity 10;
an over-large requirement of 20 fails and leaves the table unchanged. -/
theorem adjustQuantity_nonneg_no_clamp_witness :
    (deductOne [{ id := 1, name := "A", quantity := 10, reorder_level := some 10,
                  status := "low-stock" }] { materialId := 1, quantity := 20 }).2 =
      [{ id := 1, name := "A", quantity := 10, reorder_level := some 10,
         status := "low-stock" }] :=
  (adjustQuantity_nonneg_no_clamp
      [{ id := 1, name := "A", quantity := 10, reorder_level := some 10,
         status := "low-stock" }] [] (by decide)).2.1
    { materialId := 1, quantity := 20 } "Insufficient stock" (by decide)

/-- State for the C1 scenario (§8.5 of the spec): materials A (id 1, qty 10)
and B (id 2, qty 2), empty order lists. -/
def c1State : DBState :=
  { rawMaterials := [{ id := 1, name := "A", quantity := 10, reorder_level := some 10,
                       status := "low-stock" },
                     { id := 2, name := "B", quantity := 2, reorder_level := some 10,
                       status := "low-stock" }]
    inventoryItems := []
    productOrders := []
    productOrderHistory := []
    nextOrderId := 1
    purchase_orders := []
    purchase_order_items := []
    nextPoId := 1
    poSeq := 0
    invUpdateFails := false
    poFetchFails := false
    poHeaderInsertFails := false
    poItemsInsertFails := false }

/-- Order request for the C1 scenario: A:5 and B:5. -/
def c1Order : CreateOrderData :=
  { productId := 1, productName := "P", quantity := 1
    materials := [{ materialId := 1, quantity := 5 }, { materialId := 2, quantity := 5 }]
    status := "pending" }

/-- C1 (code bug): evaluating `createProductOrder` at the spec's own test
scenario — materials A (qty 10) and B (qty 2), order requiring A:5 and B:5.
The deduction of B fails with insufficient stock, the creation returns the
error and no work order is persisted, but material A is left at quantity 5:
the code performs no compensating positive adjustment, contradicting the
spec's mandatory rollback (spec §4.4 step 2 and testable property §8.5, which
require A back at 10). -/
theorem createProductOrder_no_rollback :
    (createProductOrder c1State c1Order "t0").1 = Except.error "Insufficient stock" ∧
    ((createProductOrder c1State c1Order "t0").2.rawMaterials.map RawMaterial.quantity)
      = [5, 2] ∧
    (createProductOrder c1State c1Order "t0").2.productOrders = [] :=
  ⟨rfl, by decide, by decide⟩

/-- C3 counterexample: the `getRawMaterials` row transform is a call site
that derives an item's status (whenever the stored status is missing), and
for a raw material with stored `reorder_level = 20` and `quantity = 15` it
derives `"in-stock"` although the claimed rule applied to the stored reorder
level gives `"low-stock"`: the site compares against the constant 10 and
ignores the stored level, so the claimed single rule does not hold at every
call site. -/
theorem getRawMaterialsStatus_not_spec :
    getRawMaterialsStatus none 15 = "in-stock" ∧
    specClassify 15 20 = "low-stock" ∧
    getRawMaterialsStatus none 15 ≠ specClassify 15 20 := by decide

/-- C3 amended: every site classifies with the shape of the claimed rule
(`0 → out-of-stock`, `≤ threshold → low-stock`, else `in-stock`), but the
threshold is the item's stored reorder level only in `updateRawMaterial`;
`addRawMaterial` always stores reorder level 10 and classifies against it;
the two product sites use the constant 10 (products store no reorder level);
and the `getRawMaterials` status fallback uses the constant 10 regardless of
the stored level. -/
theorem classify_sites_amended (q r : Int) (hq : 0 ≤ q) :
    updateRawMaterialStatus q (some r) = specClassify q r ∧
    addRawMaterialStatus q = specClassify q 10 ∧
    addInventoryItemStatus q = specClassify q 10 ∧
    updateInventoryItemStatus q = specClassify q 10 ∧
    getRawMaterialsStatus none q = specClassify q 10 := by
  refine ⟨rfl, rfl, rfl, rfl, ?_⟩
  show (if q > 10 then "in-stock" else if q > 0 then "low-stock" else "out-of-stock")
      = (if q = 0 then "out-of-stock" else if q ≤ 10 then "low-stock" else "in-stock")
  by_cases h10 : q > 10
  · rw [if_pos h10, if_neg (by omega : ¬ q = 0), if_neg (by omega : ¬ q ≤ 10)]
  · by_cases h0 : q = 0
    · rw [if_neg h10, if_neg (by omega : ¬ q > 0), if_pos h0]
    · rw [if_neg h10, if_pos (by omega : q > 0), if_neg h0, if_pos (by omega : q ≤ 10)]

/-- Witness for C3 (amended) at quantity 5 and stored reorder level 20. -/
theorem classify_sites_amended_witness :
    updateRawMaterialStatus 5 (some 20) = specClassify 5 20 :=
  (classify_sites_amended 5 20 (by decide)).1

theorem jsOr_ten_ne_zero (s : Option Int) : jsOr s 10 ≠ 0 := by
  cases s with
  | none => decide
  | some v =>
    by_cases h : v = 0
    · subst h
      decide
    · have hv : jsOr (some v) 10 = if v = 0 then 10 else v := rfl
      rw [hv, if_neg h]
      exact h

theorem jsOr_collapse (s : Option Int) (d : Int) :
    jsOr (some (jsOr s 10)) d = jsOr s 10 := by
  have h : jsOr (some (jsOr s 10)) d = if jsOr s 10 = 0 then d else jsOr s 10 := rfl
  rw [h, if_neg (jsOr_ten_ne_zero s)]

/-- Raw material row for the C4 counterexample's second leg: stored status
`low-stock` with quantity 15 above its stored reorder level 10.  The two
replenishment sites select their items by the stored status column, which the
store does not force to agree with the quantity. -/
def c4StaleRow : RawMaterial :=
  { id := 5, name := "Lining", quantity := 15, reorder_level := some 10,
    status := "low-stock" }

/-- C4 counterexample, at inputs on the program's data path (rows reach both
sites through the `getRawMaterials` transform).  First leg: the low-stock
report's product rows — the repository's seed data contains a low-stock
product at stock 8 (`PRD-0005`), for which the report computes
`max(40 − 8, 0) = 32` while the claimed formula at the spec's implicit
product reorder level of 10 (the constant the product status sites use)
gives `max(2·10 − 8, 10) = 12`.  Second leg: for one and the same
status-selected raw-material row (stored status `low-stock`, quantity 15,
stored reorder level 10) the report computes 5 (floor 0) while the auto-PO
generator computes 10 (floor at the reorder level) — the two sites do not
compute one shared formula. -/
theorem reportReorderNeeded_not_spec :
    reportProductReorderNeeded 8 = 32 ∧
    specReorderQuantity 8 10 = 12 ∧
    reportProductReorderNeeded 8 ≠ specReorderQuantity 8 10 ∧
    reportRawReorderNeededOnPath c4StaleRow = 5 ∧
    autoPoQuantityNeeded c4StaleRow = 10 ∧
    reportRawReorderNeededOnPath c4StaleRow ≠ autoPoQuantityNeeded c4StaleRow := by
  decide

/-- C4 amended: every row reaches both replenishment sites through the
`getRawMaterials` transform, which defaults a missing (or 0) stored
`reorder_level` to 10 — so the generator's own `|| 20` default is
unreachable and, with `r` the transformed level, the auto-PO generator
computes exactly the claimed `max(2r − q, r)` for every row.  The low-stock
report instead computes `max(2r − q, 0)` for raw materials, which agrees
with the claimed formula whenever `quantity ≤ r` (true of every
consistently-classified low/out-of-stock material), and `max(40 − stock, 0)`
for products, which is not the claimed formula (see the counterexample).
The formula value is ≥ 0 and reproduces the spec's examples `(5,10) ↦ 15`,
`(9,10) ↦ 11`, `(0,10) ↦ 20`. -/
theorem reorder_quantity_amended (row : RawMaterial)
    (hr : 0 ≤ jsOr row.reorder_level 10) :
    autoPoQuantityNeeded row =
      specReorderQuantity row.quantity (jsOr row.reorder_level 10) ∧
    (row.quantity ≤ jsOr row.reorder_level 10 →
      reportRawReorderNeededOnPath row =
        specReorderQuantity row.quantity (jsOr row.reorder_level 10)) ∧
    0 ≤ specReorderQuantity row.quantity (jsOr row.reorder_level 10) ∧
    specReorderQuantity 5 10 = 15 ∧
    specReorderQuantity 9 10 = 11 ∧
    specReorderQuantity 0 10 = 20 := by
  refine ⟨?_, ?_, ?_, by decide, by decide, by decide⟩
  · unfold autoPoQuantityNeeded poGenQuantityNeeded getRawMaterialsTransform
      specReorderQuantity
    dsimp only
    rw [jsOr_collapse row.reorder_level 20]
    simp only [max_def]
    split_ifs <;> omega
  · intro hq
    unfold reportRawReorderNeededOnPath reportRawReorderNeeded
      getRawMaterialsTransform specReorderQuantity
    dsimp only
    rw [jsOr_collapse row.reorder_level 10]
    simp only [max_def]
    split_ifs <;> omega
  · unfold specReorderQuantity
    simp only [max_def]
    split_ifs <;> omega

/-- Witness for C4 (amended): a material with quantity 5 and stored reorder
level 10, for which the on-path auto-PO generator computes the spec
formula's value 15. -/
theorem reorder_quantity_amended_witness :
    autoPoQuantityNeeded { id := 4, name := "F", quantity := 5,
                           reorder_level := some 10, status := "low-stock" } =
      specReorderQuantity 5 10 :=
  (reorder_quantity_amended
    { id := 4, name := "F", quantity := 5, reorder_level := some 10,
      status := "low-stock" } (by decide)).1

/-- C5: successfully completing an active work order (product present, stock
write succeeds) credits the order quantity to the product's stock (old stock
`p.stock` becomes `p.stock + old.quantity` with the status recomputed), marks
the returned order `"completed"` with `completedAt` stamped, removes it from
the active list and appends it to the history list — afterwards no active
order carries its id while the history list contains it, so it is a member of
exactly one of the two sets. -/
theorem updateProductOrderStatus_complete (st : DBState) (oid now : String)
    (pre post : List ProductOrder) (old : ProductOrder) (p : InventoryItem)
    (hfind : findOrder st.productOrders oid = some (pre, old, post))
    (hp : st.inventoryItems.find? (fun q => q.id == old.productId) = some p)
    (hok : st.invUpdateFails = false)
    (hpost : ∀ x ∈ post, x.id ≠ oid) :
    updateProductOrderStatus st oid "completed" now =
      (UpdateOrderResult.ok
         { old with status := "completed", updatedAt := now, completedAt := some now },
       { st with
           inventoryItems := st.inventoryItems.map (fun q =>
             if q.id == old.productId then
               { q with stock := p.stock + old.quantity,
                        status := updateInventoryItemStatus (p.stock + old.quantity) }
             else q),
           productOrders := pre ++ post,
           productOrderHistory := st.productOrderHistory ++
             [{ old with status := "completed", updatedAt := now,
                         completedAt := some now }] }) ∧
    ((updateProductOrderStatus st oid "completed" now).2.inventoryItems.find?
        (fun q => q.id == old.productId) =
      some { p with stock := p.stock + old.quantity,
                    status := updateInventoryItemStatus (p.stock + old.quantity) }) ∧
    (∀ x ∈ (updateProductOrderStatus st oid "completed" now).2.productOrders,
      x.id ≠ oid) ∧
    ({ old with status := "completed", updatedAt := now, completedAt := some now } ∈
      (updateProductOrderStatus st oid "completed" now).2.productOrderHistory) := by
  obtain ⟨hl, hid, hpre⟩ := findOrder_spec st.productOrders oid pre old post hfind
  have hfmap := find?_map_update InventoryItem.id
    (fun q => { q with stock := p.stock + old.quantity,
                       status := updateInventoryItemStatus (p.stock + old.quantity) })
    (fun x => rfl) old.productId st.inventoryItems p hp
  have hmain : updateProductOrderStatus st oid "completed" now =
      (UpdateOrderResult.ok
         { old with status := "completed", updatedAt := now, completedAt := some now },
       { st with
           inventoryItems := st.inventoryItems.map (fun q =>
             if q.id == old.productId then
               { q with stock := p.stock + old.quantity,
                        status := updateInventoryItemStatus (p.stock + old.quantity) }
             else q),
           productOrders := pre ++ post,
           productOrderHistory := st.productOrderHistory ++
             [{ old with status := "completed", updatedAt := now,
                         completedAt := some now }] }) := by
    unfold updateProductOrderStatus
    rw [hfind]
    dsimp only
    rw [if_pos rfl, hp]
    dsimp only
    unfold updateInventoryItemStock
    rw [if_neg (by simp [hok] : ¬ (st.invUpdateFails = true))]
    rw [hp]
    dsimp only
    rw [hfmap]
  refine ⟨hmain, ?_, ?_, ?_⟩
  · rw [hmain]
    exact hfmap
  · rw [hmain]
    intro x hx
    rcases List.mem_append.mp hx with hx | hx
    · exact hpre x hx
    · exact hpost x hx
  · rw [hmain]
    exact List.mem_append_right _ (List.mem_singleton.mpr rfl)

/-- State for the C5 witness: product P (id 1, stock 3) and one pending work
order for 7 units of P. -/
def c5State : DBState :=
  { rawMaterials := []
    inventoryItems := [{ id := 1, name := "P", stock := 3, status := "low-stock" }]
    productOrders := [{ id := "PO-0001", productId := 1, productName := "P",
                        quantity := 7, materials := [], status := "pending",
                        createdAt := "t0", updatedAt := "t0", completedAt := none }]
    productOrderHistory := []
    nextOrderId := 2
    purchase_orders := []
    purchase_order_items := []
    nextPoId := 1
    poSeq := 0
    invUpdateFails := false
    poFetchFails := false
    poHeaderInsertFails := false
    poItemsInsertFails := false }

/-- Witness for C5: completing the concrete pending order for 7 units at
stock 3 leaves the product at stock 10 in the updated store. -/
theorem updateProductOrderStatus_complete_witness :
    ((updateProductOrderStatus c5State "PO-0001" "completed" "t1").2.inventoryItems.find?
        (fun q => q.id == 1) =
      some { id := 1, name := "P", stock := 3 + 7,
             status := updateInventoryItemStatus (3 + 7) }) :=
  (updateProductOrderStatus_complete c5State "PO-0001" "t1" [] []
    { id := "PO-0001", productId := 1, productName := "P", quantity := 7,
      materials := [], status := "pending", createdAt := "t0", updatedAt := "t0",
      completedAt := none }
    { id := 1, name := "P", stock := 3, status := "low-stock" }
    (by decide) (by decide) rfl (by decide)).2.1

/-- C6 counterexample state: a work order already cancelled (it stays in the
active list — cancellation does not move it anywhere), product P in stock. -/
def c6State : DBState :=
  { rawMaterials := []
    inventoryItems := [{ id := 1, name := "P", stock := 3, status := "low-stock" }]
    productOrders := [{ id := "PO-0001", productId := 1, productName := "P",
                        quantity := 7, materials := [], status := "cancelled",
                        createdAt := "t0", updatedAt := "t0", completedAt := none }]
    productOrderHistory := []
    nextOrderId := 2
    purchase_orders := []
    purchase_order_items := []
    nextPoId := 1
    poSeq := 0
    invUpdateFails := false
    poFetchFails := false
    poHeaderInsertFails := false
    poItemsInsertFails := false }

/-- C6 counterexample: completing a previously-cancelled work order does not
fail with not-found and does change state — the cancelled order is still in
the active list, so the completion succeeds, credits the product stock
(3 + 7 = 10) and moves the order to history.  The claim that a cancelled
order can never be completed is false on the code. -/
theorem updateProductOrderStatus_completes_cancelled :
    (updateProductOrderStatus c6State "PO-0001" "completed" "t1").1 ≠
      UpdateOrderResult.notFound ∧
    ((updateProductOrderStatus c6State "PO-0001" "completed" "t1").2.inventoryItems.map
        InventoryItem.stock) = [10] ∧
    (updateProductOrderStatus c6State "PO-0001" "completed" "t1").2.productOrders = [] ∧
    ((updateProductOrderStatus c6State "PO-0001" "completed" "t1").2.productOrderHistory.map
        ProductOrder.status) = ["completed"] := by decide

/-- C6 amended: completion fails with not-found and leaves the whole state
unchanged exactly when no order in the active list has the requested id —
this covers an absent id and an already-completed order (completion removes
it from the active list).  A cancelled order, however, remains in the active
list (see the counterexample), so it is not rejected. -/
theorem updateProductOrderStatus_notFound (st : DBState) (oid status now : String)
    (h : ∀ o ∈ st.productOrders, o.id ≠ oid) :
    updateProductOrderStatus st oid status now = (UpdateOrderResult.notFound, st) := by
  unfold updateProductOrderStatus
  rw [findOrder_eq_none h]

/-- Witness for C6 (amended): completing an id absent from the active list of
the concrete state fails with not-found and changes nothing. -/
theorem updateProductOrderStatus_notFound_witness :
    updateProductOrderStatus c5State "PO-9999" "completed" "t1" =
      (UpdateOrderResult.notFound, c5State) :=
  updateProductOrderStatus_notFound c5State "PO-9999" "completed" "t1" (by decide)

/-- C7: when the product credit during completion fails — the product row is
absent, or the stock write fails — the whole completion fails and the state
is returned unchanged: the order is not marked completed and remains in the
active list (with its original fields, hence no observable `completedAt`),
the history list is unchanged, and the raw materials are untouched (no
re-credit). -/
theorem updateProductOrderStatus_complete_fail (st : DBState) (oid now : String)
    (pre post : List ProductOrder) (old : ProductOrder)
    (hfind : findOrder st.productOrders oid = some (pre, old, post))
    (hfail : st.inventoryItems.find? (fun q => q.id == old.productId) = none ∨
             st.invUpdateFails = true) :
    updateProductOrderStatus st oid "completed" now = (UpdateOrderResult.failed, st) ∧
    old ∈ (updateProductOrderStatus st oid "completed" now).2.productOrders ∧
    (updateProductOrderStatus st oid "completed" now).2.productOrderHistory =
      st.productOrderHistory ∧
    (updateProductOrderStatus st oid "completed" now).2.rawMaterials =
      st.rawMaterials := by
  obtain ⟨hl, hid, hpre⟩ := findOrder_spec st.productOrders oid pre old post hfind
  have hmem : old ∈ st.productOrders := by
    rw [hl]
    exact List.mem_append_right _ (List.mem_cons_self _ _)
  have hmain : updateProductOrderStatus st oid "completed" now =
      (UpdateOrderResult.failed, st) := by
    unfold updateProductOrderStatus
    rw [hfind]
    dsimp only
    rw [if_pos rfl]
    rcases hfail with hf | hf
    · rw [hf]
    · cases hip : st.inventoryItems.find? (fun q => q.id == old.productId) with
      | none => rfl
      | some product =>
        dsimp only
        unfold updateInventoryItemStock
        rw [if_pos hf]
  exact ⟨hmain, by rw [hmain]; exact hmem, by rw [hmain], by rw [hmain]⟩

/-- State for the C7 witness: an active order whose product id (9) has no row
in the inventory table. -/
def c7State : DBState :=
  { rawMaterials := [{ id := 1, name := "A", quantity := 5, reorder_level := some 10,
                       status := "low-stock" }]
    inventoryItems := []
    productOrders := [{ id := "PO-0001", productId := 9, productName := "P",
                        quantity := 7, materials := [], status := "in-progress",
                        createdAt := "t0", updatedAt := "t0", completedAt := none }]
    productOrderHistory := []
    nextOrderId := 2
    purchase_orders := []
    purchase_order_items := []
    nextPoId := 1
    poSeq := 0
    invUpdateFails := false
    poFetchFails := false
    poHeaderInsertFails := false
    poItemsInsertFails := false }

/-- Witness for C7: completing the concrete order whose product row vanished
fails and leaves the state unchanged. -/
theorem updateProductOrderStatus_complete_fail_witness :
    updateProductOrderStatus c7State "PO-0001" "completed" "t1" =
      (UpdateOrderResult.failed, c7State) :=
  (updateProductOrderStatus_complete_fail c7State "PO-0001" "t1" [] []
    { id := "PO-0001", productId := 9, productName := "P", quantity := 7,
      materials := [], status := "in-progress", createdAt := "t0", updatedAt := "t0",
      completedAt := none }
    (by decide) (Or.inl (by decide))).1

/-- C9: updating a work order's status to any value other than `"completed"`
(including `"cancelled"`) rewrites exactly that order in place with only the
status and `updatedAt` fields changed: the result state differs from the
input state in the active list alone (products, raw materials, history, the
purchase-order tables and all counters are the record-update of `st` at the
single field `productOrders`), the order stays at its position in the active
list, and every other order is untouched. -/
theorem updateProductOrderStatus_frame (st : DBState) (oid status now : String)
    (pre post : List ProductOrder) (old : ProductOrder)
    (hfind : findOrder st.productOrders oid = some (pre, old, post))
    (hne : status ≠ "completed") :
    updateProductOrderStatus st oid status now =
      (UpdateOrderResult.ok { old with status := status, updatedAt := now },
       { st with productOrders :=
           pre ++ { old with status := status, updatedAt := now } :: post }) := by
  unfold updateProductOrderStatus
  rw [hfind]
  dsimp only
  rw [if_neg hne]

/-- Witness for C9: cancelling the concrete pending order only rewrites that
order's status and `updatedAt` in the active list. -/
theorem updateProductOrderStatus_frame_witness :
    updateProductOrderStatus c5State "PO-0001" "cancelled" "t1" =
      (UpdateOrderResult.ok
         { id := "PO-0001", productId := 1, productName := "P", quantity := 7,
           materials := [], status := "cancelled", createdAt := "t0",
           updatedAt := "t1", completedAt := none },
       { c5State with productOrders :=
           [{ id := "PO-0001", productId := 1, productName := "P", quantity := 7,
              materials := [], status := "cancelled", createdAt := "t0",
              updatedAt := "t1", completedAt := none }] }) :=
  updateProductOrderStatus_frame c5State "PO-0001" "cancelled" "t1" [] []
    { id := "PO-0001", productId := 1, productName := "P", quantity := 7,
      materials := [], status := "pending", createdAt := "t0", updatedAt := "t0",
      completedAt := none }
    (by decide) (by decide)

/-- Purchase-order table for the C8 counterexample: PO-0003 was created
first (sequence 0), PO-0001 later (sequence 1). -/
def c8Rows : List PORow :=
  [{ id := 1, po_number := "PO-0003", supplier := "S", created_seq := 0 },
   { id := 2, po_number := "PO-0001", supplier := "S", created_seq := 1 }]

/-- C8 counterexample: with existing numbers PO-0001 and PO-0003 the next
generated purchase-order number depends on creation order — PO-0001 was
created last, and the generator reads only the most recently created row
(order by `created_at` descending, limit 1), so it produces PO-0002 and not
the claimed `prefix-(max+1)` = PO-0004. -/
theorem generatePoNumber_not_max :
    generatePoNumber c8Rows = "PO-0002" ∧
    generatePoNumber c8Rows ≠ "PO-0004" := by decide

/-- C8 amended: product-SKU generation reads the largest existing sku in
string order (`order by sku desc limit 1`), so it is independent of creation
order — permuting the existing rows never changes the result — and on the
spec's example it yields PRD-0004 either way (string order agrees with
numeric order while the suffixes are equal-width zero-padded).
Purchase-order numbering instead increments the most recently created PO's
number (see the counterexample), so only the SKU half of the claim holds. -/
theorem addInventoryItemSku_order_independent :
    (∀ l1 l2 : List String, l1.Perm l2 →
      addInventoryItemSku l1 = addInventoryItemSku l2) ∧
    addInventoryItemSku ["PRD-0001", "PRD-0003"] = "PRD-0004" ∧
    addInventoryItemSku ["PRD-0003", "PRD-0001"] = "PRD-0004" := by
  refine ⟨?_, by decide, by decide⟩
  intro l1 l2 h
  unfold addInventoryItemSku
  rw [maxSku_perm h]

/-- Witness for C8 (amended): swapping two concrete skus does not change the
generated next sku. -/
theorem addInventoryItemSku_order_independent_witness :
    addInventoryItemSku ["PRD-0004", "PRD-0002"] =
      addInventoryItemSku ["PRD-0002", "PRD-0004"] :=
  addInventoryItemSku_order_independent.1 _ _ (List.Perm.swap _ _ _)

/-- C10: purchase-order creation never leaves a header row without its line
items.  Under the fresh-id invariant (no existing header row carries the id
the store will assign next), a `none` result leaves both the header table and
the item table exactly as they were — in particular, when the item insert
fails the just-created header row is deleted again — and a `some` result has
the returned header row in the header table and every returned line item in
the item table. -/
theorem createPurchaseOrder_header_items_atomic (st : DBState) (d : CreatePOData)
    (hfresh : ∀ r ∈ st.purchase_orders, r.id ≠ st.nextPoId) :
    ((createPurchaseOrder st d).1 = none →
      (createPurchaseOrder st d).2.purchase_orders = st.purchase_orders ∧
      (createPurchaseOrder st d).2.purchase_order_items = st.purchase_order_items) ∧
    (∀ row items, (createPurchaseOrder st d).1 = some (row, items) →
      row ∈ (createPurchaseOrder st d).2.purchase_orders ∧
      ∀ it ∈ items, it ∈ (createPurchaseOrder st d).2.purchase_order_items) := by
  unfold createPurchaseOrder
  by_cases h1 : st.poFetchFails = true
  · rw [if_pos h1]
    exact ⟨fun _ => ⟨rfl, rfl⟩, fun row items h => by cases h⟩
  · rw [if_neg h1]
    dsimp only
    by_cases h2 : st.poHeaderInsertFails = true
    · rw [if_pos h2]
      exact ⟨fun _ => ⟨rfl, rfl⟩, fun row items h => by cases h⟩
    · rw [if_neg h2]
      by_cases h3 : st.poItemsInsertFails = true
      · rw [if_pos h3]
        refine ⟨fun _ => ⟨?_, rfl⟩, fun row items h => by cases h⟩
        dsimp only
        rw [List.filter_append]
        have hrow : (List.filter (fun r => r.id != st.nextPoId)
            [{ id := st.nextPoId, po_number := generatePoNumber st.purchase_orders,
               supplier := d.supplier, created_seq := st.poSeq }] : List PORow) = [] := by
          simp
        rw [hrow, List.append_nil]
        rw [List.filter_eq_self]
        intro r hr
        simpa using hfresh r hr
      · rw [if_neg h3]
        refine ⟨?_, ?_⟩
        · intro h
          cases h
        intro row items h
        dsimp only at h
        rw [Option.some.injEq, Prod.mk.injEq] at h
        obtain ⟨hrow, hitems⟩ := h
        constructor
        · dsimp only
          rw [← hrow]
          exact List.mem_append_right _ (List.mem_singleton.mpr rfl)
        · intro it hit
          dsimp only
          rw [← hitems] at hit
          exact List.mem_append_right _ hit

/-- State for the C10 witness: one existing purchase order, and the store
rejects the line-item insert (`poItemsInsertFails`), so the rollback path
runs. -/
def c10State : DBState :=
  { rawMaterials := []
    inventoryItems := []
    productOrders := []
    productOrderHistory := []
    nextOrderId := 1
    purchase_orders := [{ id := 1, po_number := "PO-0001", supplier := "S",
                          created_seq := 0 }]
    purchase_order_items := [{ po_id := 1, raw_material_id := 1,
                               material_name := "A", quantity := 5 }]
    nextPoId := 2
    poSeq := 1
    invUpdateFails := false
    poFetchFails := false
    poHeaderInsertFails := false
    poItemsInsertFails := true }

/-- Witness for C10: on the concrete failing-item-insert state the creation
returns `none` with both tables exactly as before — the inserted header row
was deleted again. -/
theorem createPurchaseOrder_header_items_atomic_witness :
    (createPurchaseOrder c10State { supplier := "S", items := [] }).2.purchase_orders =
      c10State.purchase_orders ∧
    (createPurchaseOrder c10State
        { supplier := "S", items := [] }).2.purchase_order_items =
      c10State.purchase_order_items :=
  (createPurchaseOrder_header_items_atomic c10State { supplier := "S", items := [] }
    (by decide)).1 (by decide)

end IMS
